import Mathlib

/-!
Verification of the food-ordering bot (`bot.py`): shallow embedding of the
aggregate updater, notification dispatcher, scheduler registration,
conversation handlers and location search, with theorems settling the
specification claims.
-/

namespace FoodBot

/-! ## Aggregate updater (`add_order_to_restaurant`, `increment_rest_orders_count`) -/

/-- A value stored at a restaurant's `orders` path: absent, a plain ordered
list, or a keyed mapping (RTDB denormalization artifact). -/
inductive ListVal where
  | absent
  | arr (l : List String)
  | map (m : List (String × String))
deriving DecidableEq, Repr

/-- The ordered sequence a `ListVal` denotes: a keyed mapping contributes its
values in order (`list(current.values())`), absence contributes nothing. -/
def normalizeListVal : ListVal → List String
  | .absent => []
  | .arr l => l
  | .map m => m.map Prod.snd

/-- The transaction body of `add_order_to_restaurant`: `None` becomes
`[order_id]`, a dict is normalized to its values, and `order_id` is appended
only if not already present. -/
def addOrderTxn (oid : String) : ListVal → List String
  | .absent => [oid]
  | .arr l => if oid ∈ l then l else l ++ [oid]
  | .map m =>
      let l := m.map Prod.snd
      if oid ∈ l then l else l ++ [oid]

/-- Reading an optional counter the way the transaction body does:
`None` counts as `0`. -/
def countOf : Option Int → Int
  | none => 0
  | some c => c

/-- The transaction body of `increment_rest_orders_count`:
`int(current) + int(delta)` with absent `current` read as `0`. -/
def incrementTxn (delta : Int) (current : Option Int) : Int :=
  countOf current + delta

/-- The shared per-vendor aggregate fields. -/
structure VendorAgg where
  orders : ListVal
  orders_count : Option Int
deriving DecidableEq, Repr

/-- One committed aggregate transaction on a vendor. -/
inductive AggOp where
  | append (oid : String)
  | incr (delta : Int)
deriving DecidableEq, Repr

/-- Effect of one committed transaction on the vendor aggregate. -/
def applyAggOp (s : VendorAgg) : AggOp → VendorAgg
  | .append oid => { s with orders := .arr (addOrderTxn oid s.orders) }
  | .incr d => { s with orders_count := some (incrementTxn d s.orders_count) }

/-- Effect of a serialized sequence of committed transactions. -/
def runAggOps (s : VendorAgg) : List AggOp → VendorAgg
  | [] => s
  | op :: ops => runAggOps (applyAggOp s op) ops

/-- The order ids appended by a sequence of operations, in order. -/
def appendedIds : List AggOp → List String
  | [] => []
  | .append oid :: ops => oid :: appendedIds ops
  | .incr _ :: ops => appendedIds ops

/-- The sum of the increments' deltas in a sequence of operations. -/
def sumDeltas : List AggOp → Int
  | [] => 0
  | .append _ :: ops => sumDeltas ops
  | .incr d :: ops => d + sumDeltas ops

/-! ## Notification dispatcher (`send_restaurant_notification`) -/

/-- One line item of an order, as built by the pick_qty callback: the price
field holds the computed subtotal. -/
structure OrderItem where
  name : String
  qty : Nat
  price : Rat
deriving DecidableEq, Repr

/-- A persisted Order record, with scheduled_for held as the parsed instant
(none models a missing or unparseable value). -/
structure Order where
  restaurant_id : String
  restaurant_name : String
  items : List OrderItem
  total_price : Rat
  user_id : String
  user_name : String
  phone : Option String
  status : String
  scheduled_for : Option Int
deriving DecidableEq, Repr

/-- Reading the order record at `orders/<oid>`. -/
def lookupOrder (orders : List (String × Order)) (oid : String) : Option Order :=
  (orders.find? (fun p => p.1 == oid)).map Prod.snd

/-- An outbound chat message carrying the notification for one order. -/
structure Outbound where
  chat : Option Int
  order_id : String
deriving DecidableEq, Repr

/-- `send_restaurant_notification`: re-reads the order; a missing record or
status served is a silent no-op, otherwise exactly one message goes to the
given restaurant chat id; the store is never written. -/
def sendRestaurantNotification (orders : List (String × Order)) (chatId : Option Int)
    (oid : String) : List Outbound × List (String × Order) :=
  match lookupOrder orders oid with
  | none => ([], orders)
  | some o => if o.status == "served" then ([], orders) else ([⟨chatId, oid⟩], orders)

/-! ## Deferred job scheduler (`schedule_order_notification`, `restore_scheduled_orders`) -/

structure Loc where
  lat : Rat
  lon : Rat
deriving DecidableEq, Repr

/-- A food record; price is held as its numeric value. -/
structure Food where
  name : String
  price : Rat
  ingredients : Option String
  people : Option Nat
deriving DecidableEq, Repr

/-- A Vendor (restaurant) record; optional fields model absent dict keys. -/
structure Rest where
  name : String
  phone : Option String
  description : Option String
  location : Option Loc
  foods : List Food
  orders : ListVal
  orders_count : Option Int
  rating : Option Rat
  chat_id : Option Int
  manager_chat_id : Option Int
deriving DecidableEq, Repr

/-- A restaurant record with every optional field absent, as created when a
write touches a child path of a restaurant id that does not exist yet. -/
def emptyRest : Rest :=
  { name := "", phone := none, description := none, location := none, foods := [],
    orders := .absent, orders_count := none, rating := none, chat_id := none,
    manager_chat_id := none }

/-- Reading the restaurant record at `restaurants/<rid>`. -/
def lookupRest (rests : List (String × Rest)) (rid : String) : Option Rest :=
  (rests.find? (fun p => p.1 == rid)).map Prod.snd

/-- One registered one-shot timer job. -/
structure Job where
  runAt : Int
  chatId : Option Int
deriving DecidableEq, Repr

/-- `scheduler.add_job` with replace_existing true: any job under the same id
is superseded. -/
def addJob (reg : List (String × Job)) (jobId : String) (j : Job) : List (String × Job) :=
  reg.filter (fun p => p.1 != jobId) ++ [(jobId, j)]

/-- The notification target: `rest.get("chat_id") or rest.get("manager_chat_id")`. -/
def notifChatId (rests : List (String × Rest)) (rid : String) : Option Int :=
  match lookupRest rests rid with
  | none => none
  | some r => r.chat_id.orElse (fun _ => r.manager_chat_id)

/-- `schedule_order_notification`: registers (or replaces) the one-shot job
keyed `order_<oid>` at the given instant. -/
def scheduleOrderNotification (reg : List (String × Job)) (oid : String) (runAt : Int)
    (chatId : Option Int) : List (String × Job) :=
  addJob reg ("order_" ++ oid) ⟨runAt, chatId⟩

/-- `restore_scheduled_orders`: scans all order records, and for each with
status scheduled and a parseable scheduled_for re-registers its timer with
the notification target of its restaurant; others are skipped. -/
def restoreScheduledOrders (rests : List (String × Rest)) :
    List (String × Order) → List (String × Job) → List (String × Job)
  | [], reg => reg
  | (oid, o) :: rest, reg =>
      if o.status == "scheduled" then
        match o.scheduled_for with
        | none => restoreScheduledOrders rests rest reg
        | some t =>
            restoreScheduledOrders rests rest
              (scheduleOrderNotification reg oid t (notifChatId rests o.restaurant_id))
      else restoreScheduledOrders rests rest reg

/-- Modelled from the spec: the timer loop itself lives in the external
scheduler library (apscheduler BackgroundScheduler), not in this repository.
Per the spec contract, processing at instant `now` fires every registered job
whose instant is at or before `now` — including instants already in the past —
each exactly once, removing it from the registry; later jobs remain. -/
def processDue (reg : List (String × Job)) (now : Int) :
    List (String × Job) × List (String × Job) :=
  (reg.filter (fun p => decide (p.2.runAt ≤ now)),
   reg.filter (fun p => ! decide (p.2.runAt ≤ now)))

/-- Number of registry entries under a given job id. -/
def keyCount (reg : List (String × Job)) (jid : String) : Nat :=
  reg.countP (fun p => p.1 == jid)

/-- The registry holds exactly one entry under `jid`, and it carries `j`. -/
def keyUnique (reg : List (String × Job)) (jid : String) (j : Job) : Prop :=
  keyCount reg jid = 1 ∧ ∀ j', (jid, j') ∈ reg → j' = j

/-! ## String helpers mirroring the Python builtins used by the handlers -/

/-- Python str.lower, character by character (ASCII-faithful). -/
def lowerStr (s : String) : String := ⟨s.data.map Char.toLower⟩

/-- Python str.strip on a character list: drop leading and trailing whitespace. -/
def stripChars (cs : List Char) : List Char :=
  ((cs.dropWhile Char.isWhitespace).reverse.dropWhile Char.isWhitespace).reverse

/-- Python str.strip. -/
def pyStrip (s : String) : String := ⟨stripChars s.data⟩

/-- Numeric value of a digit string, most significant first. -/
def natOfDigits (cs : List Char) : Nat :=
  cs.foldl (fun n c => 10 * n + (c.toNat - 48)) 0

/-- Split at the first point character: text.replace with a count of one
separates the integer part from the fractional part. -/
def splitAtFirstDot : List Char → List Char × List Char
  | [] => ([], [])
  | c :: rest =>
      if c = '.' then ([], rest)
      else
        let p := splitAtFirstDot rest
        (c :: p.1, p.2)

/-- The character list with its first point removed, as in
text.replace applied once. -/
def removeFirstDot (cs : List Char) : List Char :=
  (splitAtFirstDot cs).1 ++ (splitAtFirstDot cs).2

/-- Python str.isdigit after removing one point: nonempty and all digits. -/
def isDecimalDigits (cs : List Char) : Bool :=
  !(removeFirstDot cs).isEmpty && (removeFirstDot cs).all Char.isDigit

/-- The rational value of an unsigned decimal digit string with at most one
point, as Python float reads it. -/
def decimalVal (cs : List Char) : Rat :=
  let p := splitAtFirstDot cs
  (natOfDigits p.1 : Rat) + (natOfDigits p.2 : Rat) / ((10 : Rat) ^ p.2.length)

/-- `parse_price`: strip, drop all commas, require digits with at most one
point (so negatives and empty input fail), and read the value. -/
def parse_price (text : String) : Option Rat :=
  let cs := (stripChars text.data).filter (fun c => c != ',')
  if isDecimalDigits cs then some (decimalVal cs) else none

/-- The Python float builtin on optionally signed decimal literals, used by
the preset-food price handler. Exotic literal forms (exponents, inf, nan,
underscores) are outside the model; on this subset the value agrees. -/
def pyFloat (text : String) : Option Rat :=
  match stripChars text.data with
  | '-' :: rest => if isDecimalDigits rest then some (-(decimalVal rest)) else none
  | '+' :: rest => if isDecimalDigits rest then some (decimalVal rest) else none
  | cs => if isDecimalDigits cs then some (decimalVal cs) else none

/-! ## Vendor registration (`general_text_handler` name step, `save_restaurant_and_finish`) -/

/-- The accumulated draft of a vendor registration flow. -/
structure RestDraft where
  name : Option String
  phone : Option String
  location : Option Loc
  foods : List Food
  description : Option String
  image_file_id : Option String
deriving DecidableEq, Repr

/-- A draft with nothing captured yet. -/
def emptyDraft : RestDraft :=
  { name := none, phone := none, location := none, foods := [],
    description := none, image_file_id := none }

/-- The duplicate check of the registration name step:
some existing vendor name equals the candidate case-insensitively. -/
def nameIsDuplicate (rests : List (String × Rest)) (name : String) : Bool :=
  rests.any (fun p => lowerStr p.2.name == lowerStr name)

/-- Outcome of the registration-flow name step: the persisted state
(step tag and draft), the vendor store, and the outbound messages. -/
structure RegNameResult where
  reg_rest_step : String
  new_rest : RestDraft
  rests : List (String × Rest)
  messages : List String
deriving DecidableEq, Repr

/-- The name step of the manager self-registration flow: a duplicate name is
rejected with a re-prompt and nothing changes; otherwise the draft gains the
name and the step advances to foods. -/
def regNameStep (rests : List (String × Rest)) (draft : RestDraft) (text : String) :
    RegNameResult :=
  let name := pyStrip text
  if nameIsDuplicate rests name then
    { reg_rest_step := "name", new_rest := draft, rests := rests,
      messages := ["A restaurant with this name already exists. Send a different name."] }
  else
    { reg_rest_step := "foods", new_rest := { draft with name := some name }, rests := rests,
      messages := ["Now choose foods:"] }

/-- The vendor record committed by `save_restaurant_and_finish` from a draft. -/
def mkRestFromDraft (d : RestDraft) : Rest :=
  { name := d.name.getD "", phone := d.phone, description := d.description,
    location := d.location, foods := d.foods, orders := .absent, orders_count := none,
    rating := none, chat_id := none, manager_chat_id := none }

/-- `save_restaurant_and_finish`: unconditionally stores the draft under a
fresh id, clears the conversation state, and reports success — it performs no
duplicate-name check. -/
def saveRestaurantAndFinish (rests : List (String × Rest)) (restId : String)
    (data : RestDraft) : List (String × Rest) × List String :=
  (rests ++ [(restId, mkRestFromDraft data)], ["Restaurant added successfully!"])

/-! ## Step-transition effect traces (`handle_start`, `cmd_add`, name step) -/

/-- A persisted conversation state, tagged by the flow it drives. -/
inductive ConvStateTag where
  | empty
  | awaitingContact
  | addFlow
  | regFoods (draft : RestDraft)
deriving DecidableEq, Repr

/-- One observable side effect of a handler, in program order. -/
inductive Eff where
  | persist (st : ConvStateTag)
  | send (text : String)
deriving DecidableEq, Repr

def isPersist : Eff → Bool
  | .persist _ => true
  | .send _ => false

def isSend : Eff → Bool
  | .persist _ => false
  | .send _ => true

/-- `handle_start`: both branches send their message first and persist the
next state afterwards. -/
def handleStartTrace (registered : Bool) : List Eff :=
  if registered then
    [.send "Welcome back! Use /menu to continue.", .persist .empty]
  else
    [.send "Welcome! Please share your contact to continue.", .persist .awaitingContact]

/-- `cmd_add`: sends the choice prompt, then persists the add-flow state. -/
def cmdAddTrace : List Eff :=
  [.send "What do you want to add?", .persist .addFlow]

/-- The registration name step as an effect trace: on success the new state
is persisted before the next prompt is sent. -/
def regNameStepTrace (rests : List (String × Rest)) (draft : RestDraft) (text : String) :
    List Eff :=
  if nameIsDuplicate rests (pyStrip text) then
    [.send "A restaurant with this name already exists. Send a different name."]
  else
    [.persist (.regFoods { draft with name := some (pyStrip text) }),
     .send "Now choose foods:"]

/-- The step transitions modeled as traces. -/
def stepTransitionTraces : List (List Eff) :=
  [handleStartTrace false, handleStartTrace true, cmdAddTrace,
   regNameStepTrace [] emptyDraft "Pizza Place"]

/-- Whether the state persist precedes every outbound prompt of the trace:
if the trace both persists and sends, the first persist comes first; a trace
that sends without ever persisting fails. -/
def persistBeforePrompt (tr : List Eff) : Bool :=
  match tr.findIdx? isPersist, tr.findIdx? isSend with
  | some i, some j => decide (i < j)
  | _, none => true
  | none, some _ => false

/-! ## Price-entry steps (`add_food_mode` price, `awaiting_food_price`) -/

/-- Conversation state of the add-food-to-restaurant flow at its price step. -/
structure AddFoodModeState where
  rid : String
  food_name : String
deriving DecidableEq, Repr

/-- A keyed write of one food under `restaurants/<rid>/foods/<food_id>`. -/
structure FoodWrite where
  rid : String
  food_id : String
  food : Food
deriving DecidableEq, Repr

/-- Outcome of the add-food-mode price step: the write performed (if any),
the conversation state afterwards (some means untouched, none means cleared),
and the outbound messages. -/
structure PriceStepResult where
  written : Option FoodWrite
  stateAfter : Option AddFoodModeState
  messages : List String
deriving DecidableEq, Repr

/-- The price step of the add-food-mode flow: a price that fails to parse or
is at most zero re-prompts and leaves everything untouched; otherwise the food
is stored under the restaurant and the state is cleared. -/
def addFoodModePriceStep (st : AddFoodModeState) (text : String) (foodId : String) :
    PriceStepResult :=
  match parse_price text with
  | none =>
      { written := none, stateAfter := some st,
        messages := ["Invalid price. Send a number like 5 or 5.50"] }
  | some price =>
      if price ≤ 0 then
        { written := none, stateAfter := some st,
          messages := ["Invalid price. Send a number like 5 or 5.50"] }
      else
        { written := some ⟨st.rid, foodId,
            { name := st.food_name, price := price, ingredients := none, people := none }⟩,
          stateAfter := none,
          messages := [st.food_name ++ " added to restaurant."] }

/-- Conversation state of the preset-food flow at its price step. -/
structure AwaitFoodPriceState where
  rid : String
  food_data : Food
deriving DecidableEq, Repr

/-- The transaction body run at `restaurants/<rid>/foods` when committing a
preset food: absent becomes empty, and the food is appended unless one with
the same name exists. -/
def addFoodTxn (food : Food) (current : Option (List Food)) : List Food :=
  let cur := current.getD []
  if cur.any (fun f => f.name == food.name) then cur else cur ++ [food]

/-- The preset-food price step: input the float builtin cannot read re-prompts
and leaves everything untouched; any parsed value — with no sign or zero check
— is committed through the transaction and the state is cleared. -/
def awaitingFoodPriceStep (currentFoods : Option (List Food)) (st : AwaitFoodPriceState)
    (text : String) : Option (List Food) × Option AwaitFoodPriceState × List String :=
  match pyFloat text with
  | none => (currentFoods, some st, ["Invalid price."])
  | some price =>
      let food := { st.food_data with price := price }
      (some (addFoodTxn food currentFoods), none, [st.food_data.name ++ " added to restaurant."])

/-! ## Order placement (`pick_qty` callback, schedule step of `general_text_handler`) -/

/-- The pending order draft held in conversation state while awaiting the
schedule time. -/
structure PendingOrder where
  restaurant_id : String
  restaurant_name : String
  items : List OrderItem
  total_price : Rat
  user_id : String
  user_name : String
  phone : Option String
deriving DecidableEq, Repr

/-- `pick_qty`: looks up the restaurant and the chosen food by name, computes
the subtotal, and builds the pending order persisted with the
awaiting-schedule flag. -/
def pickQty (rests : List (String × Rest)) (userId : Int) (userName : String)
    (phone : Option String) (rid : String) (fname : String) (qty : Nat) :
    Option PendingOrder :=
  match lookupRest rests rid with
  | none => none
  | some rest =>
      match rest.foods.find? (fun f => f.name == fname) with
      | none => none
      | some food =>
          let price := food.price * (qty : Rat)
          some { restaurant_id := rid, restaurant_name := rest.name,
                 items := [{ name := fname, qty := qty, price := price }],
                 total_price := price,
                 user_id := toString userId, user_name := userName, phone := phone }

/-- Writing the order record at `orders/<oid>` (overwrite or insert). -/
def setOrder (orders : List (String × Order)) (oid : String) (o : Order) :
    List (String × Order) :=
  if orders.any (fun p => p.1 == oid) then
    orders.map (fun p => if p.1 == oid then (oid, o) else p)
  else orders ++ [(oid, o)]

/-- The two aggregate transactions run on order commit: append the order id
to the vendor orders list and increment its counter by one; a write under a
missing vendor id creates the record path. -/
def applyOrderAggregates (rests : List (String × Rest)) (rid : String) (oid : String) :
    List (String × Rest) :=
  if rests.any (fun p => p.1 == rid) then
    rests.map (fun p =>
      if p.1 == rid then
        (p.1, { p.2 with orders := .arr (addOrderTxn oid p.2.orders),
                         orders_count := some (incrementTxn 1 p.2.orders_count) })
      else p)
  else
    rests ++ [(rid, { emptyRest with orders := .arr (addOrderTxn oid .absent),
                                     orders_count := some (incrementTxn 1 none) })]

/-- The stores the schedule step reads and writes. -/
structure ScheduleCtx where
  rests : List (String × Rest)
  orders : List (String × Order)
  jobs : List (String × Job)
deriving DecidableEq, Repr

/-- Outcome of the schedule step: the awaiting-schedule state afterwards
(some means untouched, none means cleared), the stores, and the messages. -/
structure ScheduleResult where
  awaiting : Option PendingOrder
  rests : List (String × Rest)
  orders : List (String × Order)
  jobs : List (String × Job)
  messages : List String
deriving DecidableEq, Repr

/-- The schedule-time entry step: the literal tokens map to the current
instant, any other text goes through the external date parser, and a failed
parse re-prompts leaving every store and the state untouched; on success the
order is committed, the vendor aggregates updated, the notification job
registered, and the state cleared. `dateParse` stands for the external
dateutil parser (none models both a parse failure and a raised error). -/
def scheduleStep (dateParse : String → Option Int) (now : Int) (newOid : String)
    (ctx : ScheduleCtx) (pending : PendingOrder) (text : String) : ScheduleResult :=
  let runAt? := if lowerStr text == "asap" || lowerStr text == "now" then some now
                else dateParse text
  match runAt? with
  | none =>
      { awaiting := some pending, rests := ctx.rests, orders := ctx.orders, jobs := ctx.jobs,
        messages := ["Invalid time. Use ASAP or YYYY-MM-DD HH:MM."] }
  | some runAt =>
      let order : Order :=
        { restaurant_id := pending.restaurant_id, restaurant_name := pending.restaurant_name,
          items := pending.items, total_price := pending.total_price,
          user_id := pending.user_id, user_name := pending.user_name, phone := pending.phone,
          status := "scheduled", scheduled_for := some runAt }
      let orders := setOrder ctx.orders newOid order
      let rests := applyOrderAggregates ctx.rests pending.restaurant_id newOid
      let chat := notifChatId rests pending.restaurant_id
      let jobs := scheduleOrderNotification ctx.jobs newOid runAt chat
      { awaiting := none, rests := rests, orders := orders, jobs := jobs,
        messages := ["Order placed!"] }

/-! ## Location search (`find_restaurants_near_user`) -/

/-- The default search radius in kilometers. -/
def defaultRadiusKm : Rat := 10

/-- One vendor of the candidate pass: no stored location skips the vendor,
otherwise the distance to the user is computed and the vendor kept when it is
within the radius. -/
def candidateLoc (d : Loc → Loc → Rat) (user : Loc) (radius : Rat) (rid : String) :
    Option Loc → Option (Rat × String)
  | none => none
  | some pos =>
      let dist := d user pos
      if dist ≤ radius then some (dist, rid) else none

/-- The candidate pass of `find_restaurants_near_user` over the vendor
collection. The spherical distance `d` abstracts the haversine formula
(transcendental floating-point arithmetic). -/
def nearbyCandidates (d : Loc → Loc → Rat) (user : Loc) (rests : List (String × Rest))
    (radius : Rat) : List (Rat × String) :=
  rests.filterMap (fun p => candidateLoc d user radius p.1 p.2.location)

/-- `find_restaurants_near_user`: the candidates sorted ascending by distance;
the reply lists only the first fifteen. -/
def findRestaurantsNearUser (d : Loc → Loc → Rat) (user : Loc)
    (rests : List (String × Rest)) (radius : Rat) : List (Rat × String) :=
  ((nearbyCandidates d user rests radius).mergeSort
      (fun a b => decide (a.1 ≤ b.1))).take 15

/-! ## `build_food_page` and its callback actions -/

def PAGE_SIZE : Nat := 10

/-- From the source: the module has no top-level binding named rid, so the
identifier rid inside `build_food_page` resolves to no global. -/
def ridIsBoundInModuleScope : Bool := false

/-- Evaluating the global name rid at button-construction time, as Python
name resolution does: a NameError unless the module binds it. -/
def evalRid : Except String String :=
  if ridIsBoundInModuleScope then .ok "" else .error "NameError: name rid is not defined"

/-- A button payload produced by `build_food_page`. -/
inductive FoodBtnPayload where
  | food (rid : String) (index : Nat)
  | nav (rid : String) (page : Nat)
deriving DecidableEq, Repr

/-- The food-button loop of `build_food_page`: each button embeds the (unbound)
rid in its payload, so the first iteration already fails. -/
def mkFoodButtons (startIdx : Nat) (slice : List Food) : Except String (List FoodBtnPayload) :=
  match slice with
  | [] => .ok []
  | _ :: rest =>
      match evalRid with
      | .error e => .error e
      | .ok rid =>
          match mkFoodButtons (startIdx + 1) rest with
          | .error e => .error e
          | .ok btns => .ok (.food rid startIdx :: btns)

/-- The previous-page navigation button, present when the page is positive;
its payload references the unbound rid. -/
def prevNavButtons (page : Nat) : Except String (List FoodBtnPayload) :=
  if 0 < page then
    match evalRid with
    | .error e => .error e
    | .ok rid => .ok [FoodBtnPayload.nav rid (page - 1)]
  else .ok []

/-- The body of `build_food_page` past the slice, for a foods value that is a
Python list: renders the food buttons of the requested page and then the
navigation buttons, each payload referencing the unbound rid. -/
def buildFoodPageList (foods : List Food) (page : Nat) : Except String (List FoodBtnPayload) :=
  let start := page * PAGE_SIZE
  let slice := (foods.drop start).take PAGE_SIZE
  match mkFoodButtons start slice with
  | .error e => .error e
  | .ok btns =>
      match prevNavButtons page with
      | .error e => .error e
      | .ok prevBtns =>
          if start + PAGE_SIZE < foods.length then
            match evalRid with
            | .error e => .error e
            | .ok rid => .ok (btns ++ prevBtns ++ [FoodBtnPayload.nav rid (page + 1)])
          else .ok (btns ++ prevBtns)

/-- The value bound to foods inside `build_food_page`: `get_foods_ref()`
returns the unfetched database Reference object (ref), which has no
subscript or len support; a Python list of foods (fetched) is what a read
of the path would have produced. -/
inductive FoodsVal where
  | ref
  | fetched (l : List Food)
deriving DecidableEq, Repr

/-- `get_foods_ref()` as `build_food_page` uses it: the bare Reference, never
read with a get call. -/
def get_foods_ref : FoodsVal := .ref

/-- `build_food_page` on a foods value: slicing is the first operation
performed on it, and slicing the Reference raises a TypeError at once, before
any button payload — and hence before the name rid — is evaluated; only a
list would reach the button loop. -/
def buildFoodPageWith : FoodsVal → Nat → Except String (List FoodBtnPayload)
  | .ref, _ => .error "TypeError: Reference object is not subscriptable"
  | .fetched l, page => buildFoodPageList l page

/-- `build_food_page` as defined: its foods always come from
`get_foods_ref()`. -/
def buildFoodPage (page : Nat) : Except String (List FoodBtnPayload) :=
  buildFoodPageWith get_foods_ref page

/-- Calling the one-parameter `build_food_page` with a positional argument
count: Python raises a TypeError before the body runs when given more
arguments than parameters. -/
def callBuildFoodPage (argCount : Nat) (page : Nat) :
    Except String (List FoodBtnPayload) :=
  if argCount ≤ 1 then buildFoodPage page
  else .error "TypeError: build_food_page takes 1 positional argument"

/-- The food_page callback action calls `build_food_page` with two arguments. -/
def foodPageAction (page : Nat) : Except String (List FoodBtnPayload) :=
  callBuildFoodPage 2 page

/-- The add_food_existing callback action calls `build_food_page` with the
page alone. -/
def addFoodExistingAction (page : Nat) : Except String (List FoodBtnPayload) :=
  callBuildFoodPage 1 page

/-! ## Concrete records used to instantiate theorems -/

def servedOrder : Order :=
  { restaurant_id := "r1", restaurant_name := "Grill House", items := [],
    total_price := 0, user_id := "7", user_name := "Ann", phone := none,
    status := "served", scheduled_for := none }

def schedOrder : Order :=
  { restaurant_id := "r1", restaurant_name := "Grill House",
    items := [{ name := "Burger", qty := 1, price := 5 }],
    total_price := 5, user_id := "7", user_name := "Ann", phone := some "0912",
    status := "scheduled", scheduled_for := some 100 }

def c3Rest : Rest := { emptyRest with name := "Grill House", manager_chat_id := some 99 }

def pizzaRest : Rest := { emptyRest with name := "Pizza Place" }

def dupDraft : RestDraft := { emptyDraft with name := some "pizza place" }

def burgerFood : Food := { name := "Burger", price := 5, ingredients := none, people := none }

def c8Rest : Rest :=
  { emptyRest with name := "Grill House", foods := [burgerFood],
                   orders := .absent, orders_count := some 3, manager_chat_id := some 99 }

def c8Ctx : ScheduleCtx := { rests := [("r1", c8Rest)], orders := [], jobs := [] }

def presetFood : Food := { name := "Burger", price := 5, ingredients := none, people := none }

def awaitSt : AwaitFoodPriceState := { rid := "r1", food_data := presetFood }

def amState : AddFoodModeState := { rid := "r1", food_name := "Kitfo" }

def c7Pending : PendingOrder :=
  { restaurant_id := "r1", restaurant_name := "Grill House", items := [],
    total_price := 0, user_id := "7", user_name := "Ann", phone := none }

/-- The pending order the scenario of C8 builds: two Burgers at five each. -/
def c8Pending : PendingOrder :=
  { restaurant_id := "r1", restaurant_name := "Grill House",
    items := [{ name := "Burger", qty := 2, price := 10 }],
    total_price := 10, user_id := "7", user_name := "Ann", phone := some "0912" }

def locOrigin : Loc := { lat := 0, lon := 0 }

/-- Sixteen vendors, every one with a stored location. -/
def c9Rests : List (String × Rest) :=
  (List.range 16).map (fun (k : Nat) =>
    (toString k, { emptyRest with name := toString k,
                                  location := some { lat := ((k : Nat) : Rat), lon := 0 } }))

/-- A distance function placing everything at the user. -/
def dZero : Loc → Loc → Rat := fun _ _ => 0

def locRestA : Rest := { emptyRest with name := "A", location := some locOrigin }

/-- One located vendor and one without a stored location. -/
def c9WitRests : List (String × Rest) := [("a", locRestA), ("b", emptyRest)]

/-! ## Theorems -/

theorem mem_addOrderTxn (x oid : String) (v : ListVal) :
    x ∈ addOrderTxn oid v ↔ x ∈ normalizeListVal v ∨ x = oid := by
  cases v with
  | absent => simp [addOrderTxn, normalizeListVal]
  | arr l =>
      simp only [addOrderTxn, normalizeListVal]
      by_cases h : oid ∈ l
      · simp only [if_pos h]
        constructor
        · exact fun hx => Or.inl hx
        · rintro (hx | rfl)
          · exact hx
          · exact h
      · simp [if_neg h]
  | map m =>
      simp only [addOrderTxn, normalizeListVal]
      by_cases h : oid ∈ m.map Prod.snd
      · simp only [if_pos h]
        constructor
        · exact fun hx => Or.inl hx
        · rintro (hx | rfl)
          · exact hx
          · exact h
      · simp [if_neg h]

theorem mem_runAggOps (s : VendorAgg) (ops : List AggOp) (x : String) :
    x ∈ normalizeListVal (runAggOps s ops).orders ↔
      x ∈ normalizeListVal s.orders ∨ x ∈ appendedIds ops := by
  induction ops generalizing s with
  | nil => simp [runAggOps, appendedIds]
  | cons op ops ih =>
      cases op with
      | append oid =>
          simp only [runAggOps, applyAggOp, appendedIds, List.mem_cons]
          rw [ih]
          simp only [normalizeListVal, mem_addOrderTxn]
          tauto
      | incr d =>
          simp only [runAggOps, applyAggOp, appendedIds]
          exact ih _

theorem count_runAggOps (s : VendorAgg) (ops : List AggOp) :
    countOf (runAggOps s ops).orders_count =
      countOf s.orders_count + sumDeltas ops := by
  induction ops generalizing s with
  | nil => simp [runAggOps, sumDeltas]
  | cons op ops ih =>
      cases op with
      | append oid =>
          simp only [runAggOps, applyAggOp, sumDeltas]
          exact ih _
      | incr d =>
          simp only [runAggOps, applyAggOp, sumDeltas]
          rw [ih]
          simp [countOf, incrementTxn]
          ring

/-- C1 counterexample: the claim quantifies over every initial value, but
starting from a vendor whose orders list already holds an id X, a single
appended id A yields the final list X, A — its elements are not exactly the
appended ids. -/
theorem C1_counterexample :
    ¬ (∀ (s : VendorAgg) (ops : List AggOp) (x : String),
        x ∈ normalizeListVal (runAggOps s ops).orders ↔ x ∈ appendedIds ops) := by
  intro h
  have hx := (h ⟨.arr ["X"], none⟩ [.append "A"] "X").mp (by decide)
  exact absurd hx (by decide)

/-- C1 (amended): for every sequence of committed append and increment
transactions on one vendor, from any initial value (absent, list, or keyed
mapping normalized to a list), the final orders list holds exactly the
normalized initial elements together with the appended order ids, and the
final counter (absent read as zero) equals the initial count (zero if absent)
plus the sum of the deltas: no append or increment is lost. -/
theorem C1_no_lost_updates (s : VendorAgg) (ops : List AggOp) :
    (∀ x : String,
        x ∈ normalizeListVal (runAggOps s ops).orders ↔
          x ∈ normalizeListVal s.orders ∨ x ∈ appendedIds ops) ∧
    countOf (runAggOps s ops).orders_count = countOf s.orders_count + sumDeltas ops :=
  ⟨mem_runAggOps s ops, count_runAggOps s ops⟩

/-- C2: for every order id, dispatch on a missing record or one already
served sends nothing and changes no stored record; otherwise it sends exactly
one message to the given vendor notification target and still leaves the
store — in particular the order status — unchanged. -/
theorem C2_dispatch_idempotent (orders : List (String × Order)) (chatId : Option Int)
    (oid : String) :
    (lookupOrder orders oid = none →
      sendRestaurantNotification orders chatId oid = ([], orders)) ∧
    (∀ o, lookupOrder orders oid = some o → o.status = "served" →
      sendRestaurantNotification orders chatId oid = ([], orders)) ∧
    (∀ o, lookupOrder orders oid = some o → o.status ≠ "served" →
      sendRestaurantNotification orders chatId oid = ([⟨chatId, oid⟩], orders)) := by
  refine ⟨fun h => by simp [sendRestaurantNotification, h],
          fun o h hs => by simp [sendRestaurantNotification, h, hs],
          fun o h hs => by simp [sendRestaurantNotification, h, hs]⟩

/-- Witness for C2 at concrete stores: a served order and a missing id are
silent no-ops; a scheduled order produces exactly one message. -/
theorem C2_dispatch_idempotent_witness :
    sendRestaurantNotification [("S", servedOrder)] (some 5) "S" = ([], [("S", servedOrder)]) ∧
    sendRestaurantNotification [("S", servedOrder)] (some 5) "Z" = ([], [("S", servedOrder)]) ∧
    sendRestaurantNotification [("Q", schedOrder)] (some 5) "Q" =
      ([⟨some 5, "Q"⟩], [("Q", schedOrder)]) :=
  ⟨(C2_dispatch_idempotent [("S", servedOrder)] (some 5) "S").2.1 servedOrder rfl rfl,
   (C2_dispatch_idempotent [("S", servedOrder)] (some 5) "Z").1 rfl,
   (C2_dispatch_idempotent [("Q", schedOrder)] (some 5) "Q").2.2 schedOrder rfl
     (by decide)⟩

theorem orderJobId_inj (a b : String) (h : ("order_" ++ a) = ("order_" ++ b)) : a = b := by
  have hd := congrArg String.data h
  simp only [String.data_append] at hd
  exact String.ext (List.append_cancel_left hd)

theorem countP_filter_of_imp {α : Type} (l : List α) (p q : α → Bool)
    (h : ∀ a ∈ l, p a = true → q a = true) :
    (l.filter q).countP p = l.countP p := by
  induction l with
  | nil => rfl
  | cons a l ih =>
      have ih' := ih (fun x hx hp => h x (List.mem_cons_of_mem a hx) hp)
      by_cases hp : p a = true
      · have hq := h a (List.mem_cons_self a l) hp
        simp [List.filter_cons, hq, List.countP_cons, hp, ih']
      · by_cases hq : q a = true
        · simp [List.filter_cons, hq, List.countP_cons, hp, ih']
        · simp [List.filter_cons, hq, List.countP_cons, hp, ih']

theorem keyCount_addJob_self (reg : List (String × Job)) (jid : String) (j : Job) :
    keyCount (addJob reg jid j) jid = 1 := by
  unfold keyCount addJob
  rw [List.countP_append]
  have h0 : (reg.filter (fun p => p.1 != jid)).countP (fun p => p.1 == jid) = 0 := by
    rw [List.countP_eq_zero]
    intro a ha
    have hne := (List.mem_filter.mp ha).2
    simp only [bne_iff_ne, ne_eq] at hne
    simp [hne]
  rw [h0]
  simp

theorem keyUnique_addJob_self (reg : List (String × Job)) (jid : String) (j : Job) :
    keyUnique (addJob reg jid j) jid j := by
  refine ⟨keyCount_addJob_self reg jid j, fun j' hmem => ?_⟩
  unfold addJob at hmem
  rcases List.mem_append.mp hmem with h | h
  · have hne := (List.mem_filter.mp h).2
    simp at hne
  · simpa using h

theorem keyUnique_addJob_other (reg : List (String × Job)) (jid jid' : String) (j j' : Job)
    (hne : jid' ≠ jid) (hk : keyUnique reg jid j) :
    keyUnique (addJob reg jid' j') jid j := by
  constructor
  · unfold keyCount addJob
    rw [List.countP_append]
    have h1 : ([(jid', j')] : List (String × Job)).countP (fun p => p.1 == jid) = 0 := by
      simp [hne]
    have h2 : (reg.filter (fun p => p.1 != jid')).countP (fun p => p.1 == jid) =
        reg.countP (fun p => p.1 == jid) := by
      refine countP_filter_of_imp reg _ _ (fun a _ hp => ?_)
      simp only [beq_iff_eq] at hp
      simp only [hp, bne_iff_ne, ne_eq]
      exact fun habs => hne habs.symm
    rw [h1, h2, Nat.add_zero]
    exact hk.1
  · intro j'' hmem
    unfold addJob at hmem
    rcases List.mem_append.mp hmem with h | h
    · exact hk.2 j'' (List.mem_filter.mp h).1
    · simp at h
      exact absurd h.1.symm hne

theorem restore_preserves_keyUnique (rests : List (String × Rest))
    (orders : List (String × Order)) (reg : List (String × Job)) (jid : String) (j : Job)
    (hfresh : ∀ p ∈ orders, ("order_" ++ p.1) ≠ jid)
    (hk : keyUnique reg jid j) :
    keyUnique (restoreScheduledOrders rests orders reg) jid j := by
  induction orders generalizing reg with
  | nil => exact hk
  | cons a rest ih =>
      obtain ⟨oid, o⟩ := a
      have hfresh' : ∀ p ∈ rest, ("order_" ++ p.1) ≠ jid :=
        fun p hp => hfresh p (List.mem_cons_of_mem _ hp)
      unfold restoreScheduledOrders
      by_cases hs : o.status == "scheduled"
      · rw [if_pos hs]
        cases hsched : o.scheduled_for with
        | none => exact ih _ hfresh' hk
        | some t =>
            exact ih _ hfresh'
              (keyUnique_addJob_other reg jid _ j _
                (hfresh ⟨oid, o⟩ (List.mem_cons_self _ _)) hk)
      · rw [if_neg hs]
        exact ih _ hfresh' hk

theorem restore_keyUnique (rests : List (String × Rest)) (orders : List (String × Order))
    (reg : List (String × Job)) (oid : String) (o : Order) (t : Int)
    (hnodup : (orders.map Prod.fst).Nodup)
    (hmem : (oid, o) ∈ orders)
    (hstatus : o.status = "scheduled")
    (hsched : o.scheduled_for = some t) :
    keyUnique (restoreScheduledOrders rests orders reg)
      ("order_" ++ oid) ⟨t, notifChatId rests o.restaurant_id⟩ := by
  induction orders generalizing reg with
  | nil => cases hmem
  | cons a rest ih =>
      obtain ⟨oid', o'⟩ := a
      rw [List.map_cons] at hnodup
      rcases List.mem_cons.mp hmem with heq | hmem'
      · obtain ⟨h1, h2⟩ := (Prod.mk.injEq oid o oid' o') ▸ heq
        subst h1; subst h2
        unfold restoreScheduledOrders
        rw [if_pos (by simp [hstatus]), hsched]
        have hfresh : ∀ p ∈ rest, ("order_" ++ p.1) ≠ ("order_" ++ oid) := by
          intro p hp habs
          have hpo : p.1 = oid := orderJobId_inj _ _ habs
          exact (List.nodup_cons.mp hnodup).1 (List.mem_map.mpr ⟨p, hp, hpo⟩)
        exact restore_preserves_keyUnique rests rest _ _ _ hfresh
          (keyUnique_addJob_self reg _ _)
      · have hnodup' : (rest.map Prod.fst).Nodup := (List.nodup_cons.mp hnodup).2
        unfold restoreScheduledOrders
        by_cases hs : o'.status == "scheduled"
        · rw [if_pos hs]
          cases hsched' : o'.scheduled_for with
          | none => exact ih _ hnodup' hmem'
          | some t' => exact ih _ hnodup' hmem'
        · rw [if_neg hs]
          exact ih _ hnodup' hmem'

/-- C3: after restore_scheduled_orders runs over the persisted orders (with
distinct ids), every order with status scheduled and a stored instant has
exactly one registered timer job, carrying that stored instant and the vendor
notification target; scheduler processing at any instant at or after it —
also when the instant is already past — fires that job exactly once. -/
theorem C3_restore_fires_once (rests : List (String × Rest)) (orders : List (String × Order))
    (oid : String) (o : Order) (t now : Int)
    (hnodup : (orders.map Prod.fst).Nodup)
    (hmem : (oid, o) ∈ orders)
    (hstatus : o.status = "scheduled")
    (hsched : o.scheduled_for = some t)
    (hnow : t ≤ now) :
    keyUnique (restoreScheduledOrders rests orders [])
      ("order_" ++ oid) ⟨t, notifChatId rests o.restaurant_id⟩ ∧
    (processDue (restoreScheduledOrders rests orders []) now).1.countP
      (fun p => p.1 == "order_" ++ oid) = 1 := by
  have hk := restore_keyUnique rests orders [] oid o t hnodup hmem hstatus hsched
  refine ⟨hk, ?_⟩
  unfold processDue
  rw [countP_filter_of_imp]
  · exact hk.1
  · intro a ha hp
    have heq : a.1 = "order_" ++ oid := by simpa using hp
    have hmema : ("order_" ++ oid, a.2) ∈ restoreScheduledOrders rests orders [] := by
      rw [← heq]
      simpa using ha
    have hja := hk.2 a.2 hmema
    have hrt : a.2.runAt = t := by rw [hja]
    simp [hrt, hnow]

/-- Witness for C3: one persisted scheduled order with a stored instant in
the past is restored and fired exactly once when processing later. -/
theorem C3_restore_fires_once_witness :
    keyUnique (restoreScheduledOrders [("r1", c3Rest)] [("AB12", schedOrder)] [])
      ("order_" ++ "AB12") ⟨100, notifChatId [("r1", c3Rest)] schedOrder.restaurant_id⟩ ∧
    (processDue (restoreScheduledOrders [("r1", c3Rest)] [("AB12", schedOrder)] []) 200).1.countP
      (fun p => p.1 == "order_" ++ "AB12") = 1 :=
  C3_restore_fires_once [("r1", c3Rest)] [("AB12", schedOrder)] "AB12" schedOrder 100 200
    (by decide) (List.mem_singleton.mpr rfl) rfl rfl (by decide)

/-- C4 counterexample: with a vendor Pizza Place already stored, the
admin-flow commit of a draft named pizza place — a case-insensitive
duplicate — still creates a new vendor record instead of rejecting. -/
theorem C4_counterexample :
    nameIsDuplicate [("r1", pizzaRest)] "pizza place" = true ∧
    (saveRestaurantAndFinish [("r1", pizzaRest)] "r2" dupDraft).1 =
      [("r1", pizzaRest), ("r2", mkRestFromDraft dupDraft)] ∧
    (saveRestaurantAndFinish [("r1", pizzaRest)] "r2" dupDraft).1.length = 2 :=
  ⟨by decide, rfl, rfl⟩

/-- C4 (amended): only the manager self-registration flow checks names, and
it does so at the name-entry step: a case-insensitive duplicate is rejected
with a re-prompt, the draft and store unchanged; the admin-driven commit
(save_restaurant_and_finish) performs no duplicate check and always appends a
new vendor record. -/
theorem C4_duplicate_name_policy (rests : List (String × Rest)) (draft : RestDraft)
    (text : String) (hdup : nameIsDuplicate rests (pyStrip text) = true) :
    regNameStep rests draft text =
      { reg_rest_step := "name", new_rest := draft, rests := rests,
        messages := ["A restaurant with this name already exists. Send a different name."] } ∧
    ∀ (rid : String) (d : RestDraft),
      (saveRestaurantAndFinish rests rid d).1 = rests ++ [(rid, mkRestFromDraft d)] := by
  refine ⟨?_, fun rid d => rfl⟩
  unfold regNameStep
  simp [hdup]

/-- Witness for C4 at a concrete store and duplicate input. -/
theorem C4_duplicate_name_policy_witness :
    regNameStep [("r1", pizzaRest)] emptyDraft "PIZZA place" =
      { reg_rest_step := "name", new_rest := emptyDraft, rests := [("r1", pizzaRest)],
        messages := ["A restaurant with this name already exists. Send a different name."] } ∧
    ∀ (rid : String) (d : RestDraft),
      (saveRestaurantAndFinish [("r1", pizzaRest)] rid d).1 =
        [("r1", pizzaRest)] ++ [(rid, mkRestFromDraft d)] :=
  C4_duplicate_name_policy [("r1", pizzaRest)] emptyDraft "PIZZA place" (by decide)

/-- C5 counterexample: handle_start sends its prompt before persisting the
next conversation state, so not every modeled step transition persists
first. -/
theorem C5_counterexample :
    ¬ (∀ tr ∈ stepTransitionTraces, persistBeforePrompt tr = true) := by
  intro h
  have hh := h (handleStartTrace false) (List.mem_cons_self _ _)
  exact absurd hh (by decide)

/-- C5 (amended): the persist-before-prompt order is not uniform across step
transitions: the registration name step persists the advanced state before
sending the next prompt, but handle_start (both branches) and cmd_add send
the prompt first and persist the next state afterwards. -/
theorem C5_persist_order (rests : List (String × Rest)) (draft : RestDraft) (text : String)
    (h : nameIsDuplicate rests (pyStrip text) = false) :
    persistBeforePrompt (regNameStepTrace rests draft text) = true ∧
    persistBeforePrompt (handleStartTrace false) = false ∧
    persistBeforePrompt (handleStartTrace true) = false ∧
    persistBeforePrompt cmdAddTrace = false := by
  refine ⟨?_, rfl, rfl, rfl⟩
  have htr : regNameStepTrace rests draft text =
      [.persist (.regFoods { draft with name := some (pyStrip text) }),
       .send "Now choose foods:"] := by
    unfold regNameStepTrace
    simp [h]
  rw [htr]
  rfl

/-- Witness for C5 with a fresh store and name. -/
theorem C5_persist_order_witness :
    persistBeforePrompt (regNameStepTrace [] emptyDraft "Pizza Place") = true ∧
    persistBeforePrompt (handleStartTrace false) = false ∧
    persistBeforePrompt (handleStartTrace true) = false ∧
    persistBeforePrompt cmdAddTrace = false :=
  C5_persist_order [] emptyDraft "Pizza Place" rfl

theorem decimalVal_no_dot (cs : List Char) (n : Nat)
    (hsplit : splitAtFirstDot cs = (cs, [])) (hn : natOfDigits cs = n) :
    decimalVal cs = (n : Rat) := by
  simp only [decimalVal]
  rw [hsplit, hn]
  norm_num [natOfDigits]

theorem parse_price_zero : parse_price "0" = some 0 := by
  have h1 : parse_price "0" = some (decimalVal ['0']) := rfl
  rw [h1, decimalVal_no_dot ['0'] 0 (by decide) (by decide)]
  norm_num

theorem parse_price_five : parse_price "5" = some 5 := by
  have h1 : parse_price "5" = some (decimalVal ['5']) := rfl
  rw [h1, decimalVal_no_dot ['5'] 5 (by decide) (by decide)]
  norm_num

theorem pyFloat_two : pyFloat "2" = some 2 := by
  have h1 : pyFloat "2" = some (decimalVal ['2']) := rfl
  rw [h1, decimalVal_no_dot ['2'] 2 (by decide) (by decide)]
  norm_num

theorem pyFloat_neg_five : pyFloat "-5" = some (-5) := by
  have h1 : pyFloat "-5" = some (-(decimalVal ['5'])) := rfl
  rw [h1, decimalVal_no_dot ['5'] 5 (by decide) (by decide)]
  norm_num

/-- C6 counterexample: at the preset-food price step, the input -5 parses (to
a value at most zero) and, far from being rejected, is committed: the food is
written with a negative price and the state cleared. -/
theorem C6_counterexample :
    pyFloat "-5" = some (-5) ∧ ((-5 : Rat) ≤ 0) ∧
    awaitingFoodPriceStep (some []) awaitSt "-5" =
      (some [{ name := "Burger", price := -5, ingredients := none, people := none }], none,
       ["Burger added to restaurant."]) := by
  refine ⟨pyFloat_neg_five, by norm_num, ?_⟩
  unfold awaitingFoodPriceStep
  rw [pyFloat_neg_five]
  rfl

/-- C6 (amended): the add-food-mode price step rejects input that fails to
parse or is at most zero, re-prompting with state and store untouched, and
commits exactly the strictly positive decimals; the preset-food price step
rejects only input the float builtin cannot read and commits any parsed
value, zero and negatives included, so the two steps do not share one
validation policy. -/
theorem C6_price_step_validation :
    (∀ (st : AddFoodModeState) (text foodId : String),
        parse_price text = none →
        addFoodModePriceStep st text foodId =
          { written := none, stateAfter := some st,
            messages := ["Invalid price. Send a number like 5 or 5.50"] }) ∧
    (∀ (st : AddFoodModeState) (text foodId : String) (p : Rat),
        parse_price text = some p → p ≤ 0 →
        addFoodModePriceStep st text foodId =
          { written := none, stateAfter := some st,
            messages := ["Invalid price. Send a number like 5 or 5.50"] }) ∧
    (∀ (st : AddFoodModeState) (text foodId : String) (p : Rat),
        parse_price text = some p → 0 < p →
        addFoodModePriceStep st text foodId =
          { written := some ⟨st.rid, foodId,
              { name := st.food_name, price := p, ingredients := none, people := none }⟩,
            stateAfter := none,
            messages := [st.food_name ++ " added to restaurant."] }) ∧
    (∀ (cur : Option (List Food)) (st : AwaitFoodPriceState) (text : String),
        pyFloat text = none →
        awaitingFoodPriceStep cur st text = (cur, some st, ["Invalid price."])) ∧
    (∀ (cur : Option (List Food)) (st : AwaitFoodPriceState) (text : String) (p : Rat),
        pyFloat text = some p →
        awaitingFoodPriceStep cur st text =
          (some (addFoodTxn { st.food_data with price := p } cur), none,
           [st.food_data.name ++ " added to restaurant."])) := by
  refine ⟨fun st text foodId h => ?_, fun st text foodId p h hle => ?_,
          fun st text foodId p h hpos => ?_, fun cur st text h => ?_,
          fun cur st text p h => ?_⟩
  · unfold addFoodModePriceStep
    rw [h]
  · unfold addFoodModePriceStep
    rw [h]
    simp [hle]
  · unfold addFoodModePriceStep
    rw [h]
    simp [not_le.mpr hpos]
  · unfold awaitingFoodPriceStep
    rw [h]
  · unfold awaitingFoodPriceStep
    rw [h]

/-- Witness for C6 at concrete inputs: abc and 0 are rejected by the
add-food-mode step, 5 is committed there; xx is rejected by the preset-food
step and 2 is committed there. -/
theorem C6_price_step_validation_witness :
    addFoodModePriceStep amState "abc" "f1" =
      { written := none, stateAfter := some amState,
        messages := ["Invalid price. Send a number like 5 or 5.50"] } ∧
    addFoodModePriceStep amState "0" "f1" =
      { written := none, stateAfter := some amState,
        messages := ["Invalid price. Send a number like 5 or 5.50"] } ∧
    addFoodModePriceStep amState "5" "f1" =
      { written := some ⟨amState.rid, "f1",
          { name := amState.food_name, price := 5, ingredients := none, people := none }⟩,
        stateAfter := none,
        messages := [amState.food_name ++ " added to restaurant."] } ∧
    awaitingFoodPriceStep (some []) awaitSt "xx" = (some [], some awaitSt, ["Invalid price."]) ∧
    awaitingFoodPriceStep (some []) awaitSt "2" =
      (some (addFoodTxn { awaitSt.food_data with price := 2 } (some [])), none,
       [awaitSt.food_data.name ++ " added to restaurant."]) :=
  ⟨C6_price_step_validation.1 amState "abc" "f1" rfl,
   C6_price_step_validation.2.1 amState "0" "f1" 0 parse_price_zero (by norm_num),
   C6_price_step_validation.2.2.1 amState "5" "f1" 5 parse_price_five (by norm_num),
   C6_price_step_validation.2.2.2.1 (some []) awaitSt "xx" rfl,
   C6_price_step_validation.2.2.2.2 (some []) awaitSt "2" 2 pyFloat_two⟩

/-- C7: at the schedule-time entry step, text that is neither the ASAP nor
the now token (case-insensitively) and that the external date parser cannot
read re-prompts and changes nothing: the pending draft and awaiting flag are
preserved, and no order write, aggregate update, or scheduling call occurs. -/
theorem C7_invalid_time_reprompts (dateParse : String → Option Int) (now : Int)
    (newOid : String) (ctx : ScheduleCtx) (pending : PendingOrder) (text : String)
    (h1 : lowerStr text ≠ "asap") (h2 : lowerStr text ≠ "now")
    (h3 : dateParse text = none) :
    scheduleStep dateParse now newOid ctx pending text =
      { awaiting := some pending, rests := ctx.rests, orders := ctx.orders, jobs := ctx.jobs,
        messages := ["Invalid time. Use ASAP or YYYY-MM-DD HH:MM."] } := by
  unfold scheduleStep
  simp [h1, h2, h3]

/-- Witness for C7 at a concrete context and unparseable input. -/
theorem C7_invalid_time_reprompts_witness :
    scheduleStep (fun _ => none) 500 "ORD1" c8Ctx c7Pending "whenever" =
      { awaiting := some c7Pending, rests := c8Ctx.rests, orders := c8Ctx.orders,
        jobs := c8Ctx.jobs,
        messages := ["Invalid time. Use ASAP or YYYY-MM-DD HH:MM."] } :=
  C7_invalid_time_reprompts (fun _ => none) 500 "ORD1" c8Ctx c7Pending "whenever"
    (by decide) (by decide) rfl

/-- C8: the ASAP scenario: picking two Burgers priced five builds a pending
order with total ten; sending ASAP at the schedule step commits an order
record with total ten, status scheduled and scheduled_for the current
instant, appends the order id to the vendor orders list, increments its
counter by exactly one, registers the notification job, and clears the
conversation state. -/
theorem C8_asap_scenario (now : Int) :
    pickQty c8Ctx.rests 7 "Ann" (some "0912") "r1" "Burger" 2 = some c8Pending ∧
    (let r := scheduleStep (fun _ => none) now "ORD1" c8Ctx c8Pending "ASAP"
     lookupOrder r.orders "ORD1" =
       some { restaurant_id := "r1", restaurant_name := "Grill House",
              items := [{ name := "Burger", qty := 2, price := 10 }],
              total_price := 10, user_id := "7", user_name := "Ann",
              phone := some "0912", status := "scheduled", scheduled_for := some now } ∧
     (∃ r1, lookupRest r.rests "r1" = some r1 ∧
        countOf r1.orders_count = countOf c8Rest.orders_count + 1 ∧
        normalizeListVal r1.orders = normalizeListVal c8Rest.orders ++ ["ORD1"]) ∧
     r.awaiting = none ∧
     keyCount r.jobs ("order_" ++ "ORD1") = 1) := by
  constructor
  · have h10 : burgerFood.price * ((2 : Nat) : Rat) = 10 := by norm_num [burgerFood]
    show some { restaurant_id := "r1", restaurant_name := c8Rest.name,
                items := [{ name := "Burger", qty := 2,
                            price := burgerFood.price * ((2 : Nat) : Rat) }],
                total_price := burgerFood.price * ((2 : Nat) : Rat),
                user_id := toString (7 : Int), user_name := "Ann",
                phone := some "0912" } = some c8Pending
    rw [h10]
    rfl
  · exact ⟨rfl, ⟨_, rfl, rfl, rfl⟩, rfl, rfl⟩

theorem nearbyCandidates_dZero_length (user : Loc) (rests : List (String × Rest))
    (radius : Rat) (hrad : (0 : Rat) ≤ radius)
    (hloc : ∀ p ∈ rests, ∃ pos, p.2.location = some pos) :
    (nearbyCandidates dZero user rests radius).length = rests.length := by
  induction rests with
  | nil => rfl
  | cons a l ih =>
      obtain ⟨pos, hpos⟩ := hloc a (List.mem_cons_self a l)
      have ih' := ih (fun p hp => hloc p (List.mem_cons_of_mem a hp))
      have hfa : candidateLoc dZero user radius a.1 a.2.location = some (0, a.1) := by
        rw [hpos]
        simp [candidateLoc, dZero, hrad]
      unfold nearbyCandidates at ih' ⊢
      rw [List.filterMap_cons, hfa]
      simp [ih']

/-- C9 counterexample: with sixteen vendors all inside the radius, the reply
lists only fifteen, so the search does not return exactly the qualifying
vendors. -/
theorem C9_counterexample :
    (nearbyCandidates dZero locOrigin c9Rests 10).length = 16 ∧
    (findRestaurantsNearUser dZero locOrigin c9Rests 10).length = 15 := by
  have hloc : ∀ p ∈ c9Rests, ∃ pos, p.2.location = some pos := by
    intro p hp
    rcases List.mem_map.mp hp with ⟨k, hk, rfl⟩
    exact ⟨_, rfl⟩
  have hlen : (nearbyCandidates dZero locOrigin c9Rests 10).length = 16 := by
    rw [nearbyCandidates_dZero_length locOrigin c9Rests 10 (by norm_num) hloc]
    unfold c9Rests
    rw [List.length_map, List.length_range]
  refine ⟨hlen, ?_⟩
  unfold findRestaurantsNearUser
  rw [List.length_take, List.length_mergeSort, hlen]
  omega

/-- C9 (amended): the reply of the location search is sorted ascending by
distance, lists at most fifteen vendors, every listed vendor has a stored
location within the radius at its listed distance, when at most fifteen
vendors qualify every vendor with a stored location within the radius is
listed, and in general the reply together with some dropped remainder is
exactly the qualifying collection with every listed distance at most every
dropped one: the reply is the nearest at most fifteen qualifying vendors. -/
theorem C9_location_search (d : Loc → Loc → Rat) (user : Loc)
    (rests : List (String × Rest)) (radius : Rat) :
    List.Sorted (fun a b : Rat × String => a.1 ≤ b.1)
      (findRestaurantsNearUser d user rests radius) ∧
    (∀ x ∈ findRestaurantsNearUser d user rests radius,
        ∃ r, (x.2, r) ∈ rests ∧ ∃ pos, r.location = some pos ∧
          d user pos = x.1 ∧ x.1 ≤ radius) ∧
    ((nearbyCandidates d user rests radius).length ≤ 15 →
        ∀ rid r pos, (rid, r) ∈ rests → r.location = some pos → d user pos ≤ radius →
          (d user pos, rid) ∈ findRestaurantsNearUser d user rests radius) ∧
    (findRestaurantsNearUser d user rests radius).length ≤ 15 ∧
    (∃ dropped,
        (findRestaurantsNearUser d user rests radius ++ dropped).Perm
          (nearbyCandidates d user rests radius) ∧
        ∀ x ∈ findRestaurantsNearUser d user rests radius,
          ∀ y ∈ dropped, x.1 ≤ y.1) := by
  have hsorted :
      List.Pairwise (fun a b : Rat × String => (decide (a.1 ≤ b.1)) = true)
        ((nearbyCandidates d user rests radius).mergeSort
          (fun a b => decide (a.1 ≤ b.1))) := by
    apply List.sorted_mergeSort
    · intro a b c hab hbc
      simp only [decide_eq_true_eq] at hab hbc ⊢
      exact le_trans hab hbc
    · intro a b
      simp only [Bool.or_eq_true, decide_eq_true_eq]
      exact le_total a.1 b.1
  refine ⟨?_, ?_, ?_, ?_, ?_⟩
  · have hsub := List.take_sublist 15
      ((nearbyCandidates d user rests radius).mergeSort (fun a b => decide (a.1 ≤ b.1)))
    have hp := hsorted.sublist hsub
    exact hp.imp (fun h => by simpa using h)
  · intro x hx
    have hx' : x ∈ (nearbyCandidates d user rests radius).mergeSort
        (fun a b => decide (a.1 ≤ b.1)) :=
      (List.take_sublist 15 _).subset hx
    have hxc : x ∈ nearbyCandidates d user rests radius :=
      (List.mergeSort_perm _ _).mem_iff.mp hx'
    rcases List.mem_filterMap.mp hxc with ⟨p, hpmem, hpf⟩
    cases hl : p.2.location with
    | none =>
        rw [hl] at hpf
        simp [candidateLoc] at hpf
    | some pos =>
        rw [hl] at hpf
        simp only [candidateLoc] at hpf
        by_cases hle : d user pos ≤ radius
        · rw [if_pos hle] at hpf
          injection hpf with hpf'
          subst hpf'
          exact ⟨p.2, by simpa using hpmem, pos, hl, rfl, hle⟩
        · rw [if_neg hle] at hpf
          cases hpf
  · intro hlen rid r pos hmem hlocr hle
    have hc : (d user pos, rid) ∈ nearbyCandidates d user rests radius := by
      apply List.mem_filterMap.mpr
      refine ⟨(rid, r), hmem, ?_⟩
      show candidateLoc d user radius rid r.location = some (d user pos, rid)
      rw [hlocr]
      simp [candidateLoc, hle]
    have hm : (d user pos, rid) ∈ (nearbyCandidates d user rests radius).mergeSort
        (fun a b => decide (a.1 ≤ b.1)) :=
      (List.mergeSort_perm _ _).mem_iff.mpr hc
    unfold findRestaurantsNearUser
    rw [List.take_of_length_le]
    · exact hm
    · rw [List.length_mergeSort]
      exact hlen
  · exact List.length_take_le 15 _
  · refine ⟨((nearbyCandidates d user rests radius).mergeSort
        (fun a b => decide (a.1 ≤ b.1))).drop 15, ?_, ?_⟩
    · show (List.take 15 _ ++ List.drop 15 _).Perm _
      rw [List.take_append_drop]
      exact List.mergeSort_perm _ _
    · intro x hx y hy
      have hsplit := hsorted
      rw [← List.take_append_drop 15 ((nearbyCandidates d user rests radius).mergeSort
        (fun a b => decide (a.1 ≤ b.1)))] at hsplit
      have h3 := (List.pairwise_append.mp hsplit).2.2
      have hxy := h3 x hx y hy
      simpa using hxy

/-- Witness for C9: with one located vendor and one without a stored
location, the located vendor is listed at its distance. -/
theorem C9_location_search_witness :
    (dZero locOrigin locOrigin, "a") ∈ findRestaurantsNearUser dZero locOrigin c9WitRests 10 := by
  apply (C9_location_search dZero locOrigin c9WitRests 10).2.2.1
  · have hcand : nearbyCandidates dZero locOrigin c9WitRests 10 = [(0, "a")] := by
      unfold nearbyCandidates c9WitRests
      rw [List.filterMap_cons, List.filterMap_cons, List.filterMap_nil]
      have h1 : candidateLoc dZero locOrigin 10 "a" locRestA.location = some (0, "a") := by
        have hl : locRestA.location = some locOrigin := rfl
        rw [hl]
        simp [candidateLoc, dZero]
      have h2 : candidateLoc dZero locOrigin 10 "b" emptyRest.location = none := rfl
      rw [h1, h2]
    rw [hcand]
    norm_num
  · show ("a", locRestA) ∈ c9WitRests
    exact List.mem_cons_self _ _
  · rfl
  · show dZero locOrigin locOrigin ≤ 10
    simp [dZero]

theorem mkFoodButtons_cons (startIdx : Nat) (f : Food) (rest : List Food) :
    mkFoodButtons startIdx (f :: rest) = .error "NameError: name rid is not defined" := rfl

theorem mkFoodButtons_ok (startIdx : Nat) (slice : List Food) (btns : List FoodBtnPayload)
    (h : mkFoodButtons startIdx slice = .ok btns) : slice = [] ∧ btns = [] := by
  cases slice with
  | nil =>
      refine ⟨rfl, ?_⟩
      have h' : Except.ok ([] : List FoodBtnPayload) = Except.ok btns := h
      cases h'
      rfl
  | cons f rest =>
      rw [mkFoodButtons_cons] at h
      cases h

theorem prevNavButtons_pos (page : Nat) (hp : 0 < page) :
    prevNavButtons page = .error "NameError: name rid is not defined" := by
  unfold prevNavButtons
  rw [if_pos hp]
  rfl

theorem prevNavButtons_ok (page : Nat) (btns : List FoodBtnPayload)
    (h : prevNavButtons page = .ok btns) : page = 0 ∧ btns = [] := by
  by_cases hp : 0 < page
  · rw [prevNavButtons_pos page hp] at h
    cases h
  · have hz : page = 0 := Nat.eq_zero_of_not_pos hp
    subst hz
    have h' : Except.ok ([] : List FoodBtnPayload) = Except.ok btns := h
    cases h'
    exact ⟨rfl, rfl⟩

/-- C10 counterexample: already the page-zero invocation — one that renders
no food button and no navigation button — raises, and the error raised is the
TypeError from slicing the unfetched Reference, not the NameError on rid: the
failure neither waits for a button nor stems from rid. -/
theorem C10_counterexample :
    buildFoodPage 0 = .error "TypeError: Reference object is not subscriptable" ∧
    ("TypeError: Reference object is not subscriptable" : String) ≠
      "NameError: name rid is not defined" :=
  ⟨rfl, by decide⟩

/-- C10 (amended): every invocation of `build_food_page` raises an unhandled
exception, but at the slice of the unfetched foods Reference
(`foods = get_foods_ref()`, never read), a TypeError hit before any button
payload — and so before the unbound rid — is evaluated; had foods been a
fetched list, rendering any food or navigation button would still raise on
rid; the food_page callback moreover passes two arguments to the
one-parameter function, a TypeError at the call itself; consequently the
add_food_existing and food_page callback actions can never produce a
food-selection keyboard, or indeed any keyboard. -/
theorem C10_build_food_page_raises :
    (∀ page : Nat,
        buildFoodPage page = .error "TypeError: Reference object is not subscriptable") ∧
    (∀ page : Nat,
        foodPageAction page =
          .error "TypeError: build_food_page takes 1 positional argument") ∧
    (∀ page : Nat,
        addFoodExistingAction page =
          .error "TypeError: Reference object is not subscriptable") ∧
    (∀ (l : List Food) (page : Nat),
        ((l.drop (page * PAGE_SIZE)).take PAGE_SIZE ≠ [] ∨ 0 < page ∨
          page * PAGE_SIZE + PAGE_SIZE < l.length) →
        buildFoodPageList l page = .error "NameError: name rid is not defined") := by
  refine ⟨fun page => rfl, fun page => rfl, fun page => ?_, ?_⟩
  · unfold addFoodExistingAction callBuildFoodPage
    rw [if_pos (by norm_num)]
    rfl
  · intro l page hcond
    simp only [buildFoodPageList]
    cases hslice : (l.drop (page * PAGE_SIZE)).take PAGE_SIZE with
    | cons f rest => rw [mkFoodButtons_cons]
    | nil =>
        by_cases hp : 0 < page
        · simp [mkFoodButtons, prevNavButtons_pos page hp]
        · have hz : page = 0 := Nat.eq_zero_of_not_pos hp
          subst hz
          rcases hcond with h | h | h
          · exact absurd hslice h
          · exact absurd h hp
          · simp [mkFoodButtons, prevNavButtons, evalRid, ridIsBoundInModuleScope]
            simpa using h

/-- Witness for C10: concrete pages fail on the Reference slice and the
arity, and one stored food makes the hypothetical fetched-list body fail on
rid. -/
theorem C10_build_food_page_raises_witness :
    buildFoodPage 1 = .error "TypeError: Reference object is not subscriptable" ∧
    foodPageAction 0 = .error "TypeError: build_food_page takes 1 positional argument" ∧
    addFoodExistingAction 0 = .error "TypeError: Reference object is not subscriptable" ∧
    buildFoodPageList [burgerFood] 0 = .error "NameError: name rid is not defined" :=
  ⟨C10_build_food_page_raises.1 1,
   C10_build_food_page_raises.2.1 0,
   C10_build_food_page_raises.2.2.1 0,
   C10_build_food_page_raises.2.2.2 [burgerFood] 0 (Or.inl (by decide))⟩

end FoodBot
